import Mathlib

/-!
Shallow embedding of the password-generator core
(`src/lib/password-generator.ts`) and the UI generate handler
(`src/app/page.tsx`), with theorems checking the specification's claims.

Strings are modelled as `List Char`; the random draws consumed by
`generatePassword` are modelled as an arbitrary function `draws : Nat → Nat`
(the `i`-th unsigned 32-bit value is `draws i % 2 ^ 32`, mirroring the
`Uint32Array` truncation). Fallible code returns `Except String`.
JavaScript `Math.round` on a non-negative rational `q` is `⌊q + 1/2⌋`
(round half up), and `Math.min(10, s)` is `min 10 s`.
-/

namespace PasswordGenerator

/-- Embeds the TypeScript interface `PasswordOptions`. The `length` field is
a JavaScript number holding an integer, so it is modelled as `Int`. -/
structure PasswordOptions where
  length : Int
  includeUppercase : Bool
  includeLowercase : Bool
  includeNumbers : Bool
  includeSymbols : Bool
deriving DecidableEq, Repr

/-- `const UPPERCASE = "ABCDEFGHIJKLMNOPQRSTUVWXYZ"`. -/
def UPPERCASE : List Char := "ABCDEFGHIJKLMNOPQRSTUVWXYZ".toList

/-- `const LOWERCASE = "abcdefghijklmnopqrstuvwxyz"`. -/
def LOWERCASE : List Char := "abcdefghijklmnopqrstuvwxyz".toList

/-- `const NUMBERS = "0123456789"`. -/
def NUMBERS : List Char := "0123456789".toList

/-- `const SYMBOLS = "!@#$%^&*()_+-=[]{}|;:,.<>?"` (the two braces are
written with hexadecimal escapes). -/
def SYMBOLS : List Char := "!@#$%^&*()_+-=[]\x7b\x7d|;:,.<>?".toList

/-- The `charset` built by `generatePassword` lines 29-33: concatenation of
the enabled classes' alphabets in the fixed order
uppercase, lowercase, numbers, symbols. -/
def buildCharset (options : PasswordOptions) : List Char :=
  (if options.includeUppercase then UPPERCASE else []) ++
  (if options.includeLowercase then LOWERCASE else []) ++
  (if options.includeNumbers then NUMBERS else []) ++
  (if options.includeSymbols then SYMBOLS else [])

/-- Embeds `generatePassword` (lines 19-66). `draws i` supplies the `i`-th
random value; as in the source it is truncated to 32 bits by the
`Uint32Array` and reduced modulo `charset.length` to index the charset. -/
def generatePassword (options : PasswordOptions) (draws : Nat → Nat) :
    Except String (List Char) :=
  let charset := buildCharset options
  if h : charset.length = 0 then
    .error "At least one character type must be selected"
  else if options.length < 1 ∨ options.length > 128 then
    .error "Password length must be between 1 and 128"
  else
    .ok ((List.range options.length.toNat).map (fun i =>
      charset.get ⟨draws i % 2 ^ 32 % charset.length,
        Nat.mod_lt _ (Nat.pos_of_ne_zero h)⟩))

/-- Embeds `calculatePasswordStrength` (lines 74-95): length contribution
plus `varietyCount * 1.5`, rounded, capped at 10. -/
def calculatePasswordStrength (password : List Char)
    (options : PasswordOptions) : Int :=
  let lengthScore : ℚ :=
    if 12 ≤ password.length then 4
    else if 8 ≤ password.length then 2
    else if 6 ≤ password.length then 1
    else 0
  let varietyCount : ℕ :=
    (if options.includeUppercase then 1 else 0) +
    (if options.includeLowercase then 1 else 0) +
    (if options.includeNumbers then 1 else 0) +
    (if options.includeSymbols then 1 else 0)
  let strength : ℚ := lengthScore + (varietyCount : ℚ) * 1.5
  min 10 ⌊strength + 1 / 2⌋

/-- Embeds the record returned by `getStrengthInfo`. -/
structure StrengthInfo where
  label : String
  color : String
deriving DecidableEq, Repr

/-- Embeds `getStrengthInfo` (lines 102-113). -/
def getStrengthInfo (strength : Int) : StrengthInfo :=
  if strength ≤ 3 then
    { label := "Weak", color := "bg-red-500" }
  else if strength ≤ 6 then
    { label := "Medium", color := "bg-yellow-500" }
  else
    { label := "Strong", color := "bg-green-500" }

/-- State of the UI relevant to the generate action in `page.tsx`:
the displayed password and the copied indicator. -/
structure UIState where
  password : List Char
  copied : Bool
deriving DecidableEq, Repr

/-- Embeds the `generateNewPassword` handler (`src/app/page.tsx` lines
33-41): on success it stores the new password and clears `copied`; the
`catch` block only logs, so on error the state is returned unchanged. -/
def generateNewPassword (options : PasswordOptions) (draws : Nat → Nat)
    (s : UIState) : UIState :=
  match generatePassword options draws with
  | .ok newPassword => { password := newPassword, copied := false }
  | .error _ => s

/-- A policy is valid when its length lies in [1,128] and at least one
class flag is true. -/
def validPolicy (options : PasswordOptions) : Prop :=
  1 ≤ options.length ∧ options.length ≤ 128 ∧
    (options.includeUppercase ∨ options.includeLowercase ∨
     options.includeNumbers ∨ options.includeSymbols)

instance (options : PasswordOptions) : Decidable (validPolicy options) := by
  unfold validPolicy; infer_instance

/-- The charset's length is the sum of the enabled alphabets' sizes. -/
lemma buildCharset_length (o : PasswordOptions) :
    (buildCharset o).length =
      (if o.includeUppercase then 26 else 0) +
      (if o.includeLowercase then 26 else 0) +
      (if o.includeNumbers then 10 else 0) +
      (if o.includeSymbols then 26 else 0) := by
  have hU : UPPERCASE.length = 26 := rfl
  have hL : LOWERCASE.length = 26 := rfl
  have hN : NUMBERS.length = 10 := rfl
  have hS : SYMBOLS.length = 26 := rfl
  simp only [buildCharset, List.length_append, apply_ite List.length,
    hU, hL, hN, hS, List.length_nil]

/-- The charset is empty exactly when all four class flags are false. -/
lemma charset_empty_iff (o : PasswordOptions) :
    (buildCharset o).length = 0 ↔
      (o.includeUppercase = false ∧ o.includeLowercase = false ∧
       o.includeNumbers = false ∧ o.includeSymbols = false) := by
  rw [buildCharset_length]
  cases o.includeUppercase <;> cases o.includeLowercase <;>
    cases o.includeNumbers <;> cases o.includeSymbols <;> simp

/-- Membership in `(if b then l else [])` means the flag is on and the
element is in `l`. -/
lemma mem_ite_nil {c : Char} {b : Bool} {l : List Char} :
    (c ∈ if b then l else []) ↔ (b = true ∧ c ∈ l) := by
  cases b <;> simp

/-- A character is in the charset exactly when it is in the alphabet of
some enabled class. -/
lemma mem_buildCharset {c : Char} {o : PasswordOptions} :
    c ∈ buildCharset o ↔
      (o.includeUppercase = true ∧ c ∈ UPPERCASE ∨
       o.includeLowercase = true ∧ c ∈ LOWERCASE ∨
       o.includeNumbers = true ∧ c ∈ NUMBERS ∨
       o.includeSymbols = true ∧ c ∈ SYMBOLS) := by
  simp [buildCharset, List.mem_append, mem_ite_nil, or_assoc]

/-- A valid policy yields a non-empty charset. -/
lemma charset_not_empty_of_valid {o : PasswordOptions}
    (hv : validPolicy o) : ¬(buildCharset o).length = 0 := by
  intro hz
  obtain ⟨hu, hl, hn, hs⟩ := (charset_empty_iff o).mp hz
  rcases hv.2.2 with h | h | h | h <;> simp_all

/-- With an empty charset, `generatePassword` reports the empty-class
error whatever the length. -/
lemma generatePassword_all_false (o : PasswordOptions) (draws : Nat → Nat)
    (h0 : (buildCharset o).length = 0) :
    generatePassword o draws =
      .error "At least one character type must be selected" := by
  simp only [generatePassword]
  rw [dif_pos h0]

/-- With a non-empty charset and an out-of-range length,
`generatePassword` reports the length error. -/
lemma generatePassword_bad_length (o : PasswordOptions)
    (draws : Nat → Nat) (h0 : ¬(buildCharset o).length = 0)
    (hlen : o.length < 1 ∨ o.length > 128) :
    generatePassword o draws =
      .error "Password length must be between 1 and 128" := by
  simp only [generatePassword]
  rw [dif_neg h0, if_pos hlen]

/-- With a non-empty charset and an in-range length, `generatePassword`
returns the mapped character list. -/
lemma generatePassword_success (o : PasswordOptions) (draws : Nat → Nat)
    (h0 : ¬(buildCharset o).length = 0)
    (hlen : ¬(o.length < 1 ∨ o.length > 128)) :
    generatePassword o draws = .ok ((List.range o.length.toNat).map
      (fun i => (buildCharset o).get
        ⟨draws i % 2 ^ 32 % (buildCharset o).length,
          Nat.mod_lt _ (Nat.pos_of_ne_zero h0)⟩)) := by
  simp only [generatePassword]
  rw [dif_neg h0, if_neg hlen]

/-- On a valid policy, a successful `generatePassword` result is the
mapped character list. -/
lemma generatePassword_eq_ok {o : PasswordOptions} {draws : Nat → Nat}
    {pwd : List Char} (hv : validPolicy o)
    (hok : generatePassword o draws = .ok pwd) :
    pwd = (List.range o.length.toNat).map (fun i =>
      (buildCharset o).get ⟨draws i % 2 ^ 32 % (buildCharset o).length,
        Nat.mod_lt _ (Nat.pos_of_ne_zero (charset_not_empty_of_valid hv))⟩) := by
  have h0 := charset_not_empty_of_valid hv
  have hlen : ¬(o.length < 1 ∨ o.length > 128) := by
    push_neg
    exact ⟨hv.1, hv.2.1⟩
  rw [generatePassword_success o draws h0 hlen] at hok
  exact (Except.ok.inj hok).symm

/-- The indicator used for the variety count is monotone in the flag. -/
lemma indicator_mono {b1 b2 : Bool} (h : b1 ≤ b2) :
    (if b1 then (1 : ℕ) else 0) ≤ (if b2 then 1 else 0) := by
  revert h
  cases b1 <;> cases b2 <;> decide

/-- The strength score is monotone under pointwise-larger flag sets. -/
lemma calculatePasswordStrength_flag_mono (pwd : List Char)
    {o1 o2 : PasswordOptions}
    (hu : o1.includeUppercase ≤ o2.includeUppercase)
    (hl : o1.includeLowercase ≤ o2.includeLowercase)
    (hn : o1.includeNumbers ≤ o2.includeNumbers)
    (hs : o1.includeSymbols ≤ o2.includeSymbols) :
    calculatePasswordStrength pwd o1 ≤ calculatePasswordStrength pwd o2 := by
  simp only [calculatePasswordStrength]
  apply min_le_min le_rfl
  apply Int.floor_le_floor
  apply add_le_add_right
  apply add_le_add_left
  apply mul_le_mul_of_nonneg_right _ (by norm_num)
  exact_mod_cast
    add_le_add (add_le_add (add_le_add (indicator_mono hu)
      (indicator_mono hl)) (indicator_mono hn)) (indicator_mono hs)

end PasswordGenerator

namespace PasswordGenerator

/-- Claim C2: for a valid policy and any draw sequence, a successful
`generatePassword` returns exactly `policy.length` characters. -/
theorem claim_C2_output_length (o : PasswordOptions) (draws : Nat → Nat)
    (pwd : List Char) (hv : validPolicy o)
    (hok : generatePassword o draws = .ok pwd) :
    (pwd.length : Int) = o.length := by
  have h1 : 1 ≤ o.length := hv.1
  rw [generatePassword_eq_ok hv hok]
  simp only [List.length_map, List.length_range]
  omega

/-- Witness for C2 at length 1 with only uppercase enabled. -/
theorem claim_C2_witness :
    validPolicy ⟨1, true, false, false, false⟩ ∧
      ((['A'] : List Char).length : Int) =
        (⟨1, true, false, false, false⟩ : PasswordOptions).length :=
  ⟨by decide,
    claim_C2_output_length ⟨1, true, false, false, false⟩ (fun _ => 0) ['A']
      (by decide) rfl⟩

/-- Claim C1: for a valid policy and any draw sequence, every character of
a successful `generatePassword` result lies in the alphabet of one of the
enabled classes. -/
theorem claim_C1_chars_in_enabled_classes (o : PasswordOptions)
    (draws : Nat → Nat) (pwd : List Char) (c : Char) (hv : validPolicy o)
    (hok : generatePassword o draws = .ok pwd) (hc : c ∈ pwd) :
    o.includeUppercase = true ∧ c ∈ UPPERCASE ∨
    o.includeLowercase = true ∧ c ∈ LOWERCASE ∨
    o.includeNumbers = true ∧ c ∈ NUMBERS ∨
    o.includeSymbols = true ∧ c ∈ SYMBOLS := by
  rw [generatePassword_eq_ok hv hok] at hc
  obtain ⟨i, _, rfl⟩ := List.mem_map.mp hc
  exact mem_buildCharset.mp (List.get_mem _ _ _)

/-- Witness for C1: 'A' from a one-character uppercase-only password. -/
theorem claim_C1_witness :
    (⟨1, true, false, false, false⟩ : PasswordOptions).includeUppercase =
        true ∧ 'A' ∈ UPPERCASE ∨
    (⟨1, true, false, false, false⟩ : PasswordOptions).includeLowercase =
        true ∧ 'A' ∈ LOWERCASE ∨
    (⟨1, true, false, false, false⟩ : PasswordOptions).includeNumbers =
        true ∧ 'A' ∈ NUMBERS ∨
    (⟨1, true, false, false, false⟩ : PasswordOptions).includeSymbols =
        true ∧ 'A' ∈ SYMBOLS :=
  claim_C1_chars_in_enabled_classes ⟨1, true, false, false, false⟩
    (fun _ => 0) ['A'] 'A' (by decide) rfl (by decide)

/-- Claim C3: `generatePassword` fails exactly on invalid policies: the
empty-class error occurs iff all four flags are false (any length), the
length error occurs iff some flag is true and the length is outside
[1,128], and it succeeds iff the policy is valid. -/
theorem claim_C3_error_classification (o : PasswordOptions)
    (draws : Nat → Nat) :
    (generatePassword o draws =
        .error "At least one character type must be selected" ↔
      o.includeUppercase = false ∧ o.includeLowercase = false ∧
        o.includeNumbers = false ∧ o.includeSymbols = false) ∧
    (generatePassword o draws =
        .error "Password length must be between 1 and 128" ↔
      (o.includeUppercase = true ∨ o.includeLowercase = true ∨
        o.includeNumbers = true ∨ o.includeSymbols = true) ∧
        (o.length < 1 ∨ o.length > 128)) ∧
    ((∃ pwd, generatePassword o draws = .ok pwd) ↔ validPolicy o) := by
  by_cases h0 : (buildCharset o).length = 0
  · obtain ⟨hu, hl, hn, hs⟩ := (charset_empty_iff o).mp h0
    rw [generatePassword_all_false o draws h0]
    refine ⟨?_, ?_, ?_⟩
    · simp [hu, hl, hn, hs]
    · constructor
      · intro h
        exact absurd (Except.error.inj h) (by decide)
      · rintro ⟨h | h | h | h, -⟩ <;> simp_all
    · constructor
      · rintro ⟨pwd, h⟩
        exact absurd h (by simp)
      · intro hv
        exact absurd h0 (charset_not_empty_of_valid hv)
  · have hsome : o.includeUppercase = true ∨ o.includeLowercase = true ∨
        o.includeNumbers = true ∨ o.includeSymbols = true := by
      by_contra hc
      push_neg at hc
      obtain ⟨hu, hl, hn, hs⟩ := hc
      simp only [Bool.not_eq_true] at hu hl hn hs
      exact h0 ((charset_empty_iff o).mpr ⟨hu, hl, hn, hs⟩)
    by_cases hlen : o.length < 1 ∨ o.length > 128
    · rw [generatePassword_bad_length o draws h0 hlen]
      refine ⟨?_, ?_, ?_⟩
      · constructor
        · intro h
          exact absurd (Except.error.inj h) (by decide)
        · rintro ⟨hu, hl, hn, hs⟩
          rcases hsome with h | h | h | h <;> simp_all
      · exact ⟨fun _ => ⟨hsome, hlen⟩, fun _ => rfl⟩
      · constructor
        · rintro ⟨pwd, h⟩
          exact absurd h (by simp)
        · intro hv
          rcases hlen with h | h <;> [exact absurd hv.1 (by omega);
            exact absurd hv.2.1 (by omega)]
    · rw [generatePassword_success o draws h0 hlen]
      refine ⟨?_, ?_, ?_⟩
      · constructor
        · intro h
          exact absurd h (by simp)
        · rintro ⟨hu, hl, hn, hs⟩
          rcases hsome with h | h | h | h <;> simp_all
      · constructor
        · intro h
          exact absurd h (by simp)
        · rintro ⟨-, h⟩
          exact absurd h hlen
      · push_neg at hlen
        exact ⟨fun _ => ⟨hlen.1, hlen.2, by simpa using hsome⟩,
          fun _ => ⟨_, rfl⟩⟩

/-- Witness for C3: length 0 with all flags false still reports the
empty-class error. -/
theorem claim_C3_witness :
    generatePassword ⟨0, false, false, false, false⟩ (fun _ => 0) =
      .error "At least one character type must be selected" :=
  (claim_C3_error_classification ⟨0, false, false, false, false⟩
      (fun _ => 0)).1.mpr ⟨rfl, rfl, rfl, rfl⟩

/-- Claim C4: the strength score depends on the password only through its
length: equal-length passwords score identically under any one policy. -/
theorem claim_C4_content_independent (p1 p2 : List Char)
    (o : PasswordOptions) (h : p1.length = p2.length) :
    calculatePasswordStrength p1 o = calculatePasswordStrength p2 o := by
  simp only [calculatePasswordStrength, h]

/-- Witness for C4: two different one-character passwords score equally. -/
theorem claim_C4_witness :
    (['a'] : List Char).length = (['b'] : List Char).length ∧
      calculatePasswordStrength ['a'] ⟨1, true, true, true, true⟩ =
        calculatePasswordStrength ['b'] ⟨1, true, true, true, true⟩ :=
  ⟨rfl, claim_C4_content_independent ['a'] ['b']
    ⟨1, true, true, true, true⟩ rfl⟩

/-- Claim C5: the four literal boundary scenarios: length 16 with all
classes scores 10 ("Strong"); length 6 with lowercase only scores 3
("Weak", 2.5 rounded half-up); length 8 with uppercase and lowercase
scores 5 ("Medium"); length 32 with symbols only scores 6 ("Medium"). -/
theorem claim_C5_boundary_scenarios :
    calculatePasswordStrength (List.replicate 16 'x')
        ⟨16, true, true, true, true⟩ = 10 ∧
      (getStrengthInfo 10).label = "Strong" ∧
    calculatePasswordStrength (List.replicate 6 'x')
        ⟨6, false, true, false, false⟩ = 3 ∧
      (getStrengthInfo 3).label = "Weak" ∧
    calculatePasswordStrength (List.replicate 8 'x')
        ⟨8, true, true, false, false⟩ = 5 ∧
      (getStrengthInfo 5).label = "Medium" ∧
    calculatePasswordStrength (List.replicate 32 'x')
        ⟨32, false, false, false, true⟩ = 6 ∧
      (getStrengthInfo 6).label = "Medium" := by
  refine ⟨?_, rfl, ?_, rfl, ?_, rfl, ?_, rfl⟩ <;>
    simp only [calculatePasswordStrength, List.length_replicate] <;>
    norm_num

/-- Claim C6: `getStrengthInfo` classifies scores at most 3 as "Weak",
scores 4 to 6 as "Medium", scores at least 7 as "Strong", always returns
one of these three records, and pairs one fixed color with each label. -/
theorem claim_C6_classification (s : Int) :
    ((s ≤ 3 → getStrengthInfo s = ⟨"Weak", "bg-red-500"⟩) ∧
     (4 ≤ s → s ≤ 6 → getStrengthInfo s = ⟨"Medium", "bg-yellow-500"⟩) ∧
     (7 ≤ s → getStrengthInfo s = ⟨"Strong", "bg-green-500"⟩)) ∧
    (getStrengthInfo s = ⟨"Weak", "bg-red-500"⟩ ∨
     getStrengthInfo s = ⟨"Medium", "bg-yellow-500"⟩ ∨
     getStrengthInfo s = ⟨"Strong", "bg-green-500"⟩) := by
  unfold getStrengthInfo
  refine ⟨⟨?_, ?_, ?_⟩, ?_⟩ <;> split_ifs <;>
    first
      | (intros; rfl)
      | (intros; exfalso; omega)
      | exact Or.inl rfl
      | exact Or.inr (Or.inl rfl)
      | exact Or.inr (Or.inr rfl)

/-- Witness for C6 at the Weak/Medium boundary score 3. -/
theorem claim_C6_witness :
    getStrengthInfo 3 = ⟨"Weak", "bg-red-500"⟩ :=
  (claim_C6_classification 3).1.1 (by decide)

/-- Claim C7: for every password and every flag combination the strength
score lies in [0, 10]. -/
theorem claim_C7_score_range (pwd : List Char) (o : PasswordOptions) :
    0 ≤ calculatePasswordStrength pwd o ∧
      calculatePasswordStrength pwd o ≤ 10 := by
  simp only [calculatePasswordStrength]
  refine ⟨le_min (by norm_num) (Int.le_floor.mpr ?_), min_le_left _ _⟩
  push_cast
  split_ifs <;> positivity

/-- Claim C8: the charset is the concatenation, in the fixed order
uppercase, lowercase, digits, symbols, of exactly the enabled classes'
literal alphabets (26, 26, 10 and 26 characters respectively), and it is
non-empty whenever some flag is true. -/
theorem claim_C8_charset_structure (o : PasswordOptions) :
    buildCharset o =
      (if o.includeUppercase
        then "ABCDEFGHIJKLMNOPQRSTUVWXYZ".toList else []) ++
      (if o.includeLowercase
        then "abcdefghijklmnopqrstuvwxyz".toList else []) ++
      (if o.includeNumbers then "0123456789".toList else []) ++
      (if o.includeSymbols
        then "!@#$%^&*()_+-=[]\x7b\x7d|;:,.<>?".toList else []) ∧
    UPPERCASE.length = 26 ∧ LOWERCASE.length = 26 ∧
    NUMBERS.length = 10 ∧ SYMBOLS.length = 26 ∧
    ((o.includeUppercase ∨ o.includeLowercase ∨
        o.includeNumbers ∨ o.includeSymbols) → buildCharset o ≠ []) := by
  refine ⟨rfl, rfl, rfl, rfl, rfl, fun hf heq => ?_⟩
  have h0 : (buildCharset o).length = 0 := by rw [heq]; rfl
  obtain ⟨hu, hl, hn, hs⟩ := (charset_empty_iff o).mp h0
  rcases hf with h | h | h | h <;> simp_all

/-- Witness for C8: with all classes enabled the charset is non-empty. -/
theorem claim_C8_witness :
    buildCharset ⟨16, true, true, true, true⟩ ≠ [] :=
  (claim_C8_charset_structure
    ⟨16, true, true, true, true⟩).2.2.2.2.2 (by decide)

/-- Claim C9: the UI generate handler updates the displayed password only
on success; when `generatePassword` throws, the caught error leaves the
previous state untouched. -/
theorem claim_C9_ui_error_keeps_state (o : PasswordOptions)
    (draws : Nat → Nat) (s : UIState) :
    ((∃ e, generatePassword o draws = .error e) →
      generateNewPassword o draws s = s) ∧
    (∀ pwd, generatePassword o draws = .ok pwd →
      generateNewPassword o draws s = ⟨pwd, false⟩) := by
  constructor
  · rintro ⟨e, he⟩
    simp [generateNewPassword, he]
  · intro pwd hp
    simp [generateNewPassword, hp]

/-- Witness for C9: an invalid length-0 policy leaves the prior state. -/
theorem claim_C9_witness :
    generateNewPassword ⟨0, true, true, true, true⟩ (fun _ => 0)
        ⟨['x'], true⟩ = ⟨['x'], true⟩ :=
  (claim_C9_ui_error_keeps_state ⟨0, true, true, true, true⟩ (fun _ => 0)
    ⟨['x'], true⟩).1
    ⟨"Password length must be between 1 and 128", rfl⟩

/-- Claim C10: the strength score is monotone: non-decreasing in password
length for a fixed policy, and turning any single flag from false to true
never decreases the score. -/
theorem claim_C10_monotone :
    (∀ (p1 p2 : List Char) (o : PasswordOptions), p1.length ≤ p2.length →
      calculatePasswordStrength p1 o ≤ calculatePasswordStrength p2 o) ∧
    (∀ (pwd : List Char) (o : PasswordOptions),
      o.includeUppercase = false →
        calculatePasswordStrength pwd o ≤
          calculatePasswordStrength pwd
            { o with includeUppercase := true }) ∧
    (∀ (pwd : List Char) (o : PasswordOptions),
      o.includeLowercase = false →
        calculatePasswordStrength pwd o ≤
          calculatePasswordStrength pwd
            { o with includeLowercase := true }) ∧
    (∀ (pwd : List Char) (o : PasswordOptions),
      o.includeNumbers = false →
        calculatePasswordStrength pwd o ≤
          calculatePasswordStrength pwd
            { o with includeNumbers := true }) ∧
    (∀ (pwd : List Char) (o : PasswordOptions),
      o.includeSymbols = false →
        calculatePasswordStrength pwd o ≤
          calculatePasswordStrength pwd
            { o with includeSymbols := true }) := by
  refine ⟨?_, ?_, ?_, ?_, ?_⟩
  · intro p1 p2 o h
    simp only [calculatePasswordStrength]
    apply min_le_min le_rfl
    apply Int.floor_le_floor
    apply add_le_add_right
    apply add_le_add_right
    split_ifs <;> first | (exfalso; omega) | norm_num
  all_goals
    intro pwd o h
    refine calculatePasswordStrength_flag_mono pwd ?_ ?_ ?_ ?_ <;>
      simp [h]

/-- Witness for C10: lengthening a password does not lower its score. -/
theorem claim_C10_witness :
    calculatePasswordStrength ['a'] ⟨1, true, true, true, true⟩ ≤
      calculatePasswordStrength ['a', 'b'] ⟨1, true, true, true, true⟩ :=
  claim_C10_monotone.1 ['a'] ['a', 'b'] ⟨1, true, true, true, true⟩
    (by decide)

end PasswordGenerator
